import Mathlib

/-!
Shallow embedding of the email-classifier decision pipeline.

The embedding covers the two components the claims are about:

* `EmailHistoryChecker` (relationship analysis): `checkEmailHistory`,
  `generateHistorySummary`, `analyzeThreadContext`, `generateThreadContext`,
  `analyzeSenderDomain`.
* `OpenAIClassifier` (label decision): `classifyEmail`,
  `parseClassificationResponse`, `getLabelName`, `fallbackClassification`
  together with its keyword predicates.

External collaborators are modelled as injected values, mirroring how the
source injects them: the two mailbox history lookups become
`Except String (List α)` arguments, the LLM call becomes an
`Except String String` argument, and the JavaScript `JSON.parse` builtin
becomes a `String → Option ParsedJson` argument (with a concrete executable
instantiation `jsonParseSpec` used for closed runs).

JavaScript-specific behaviours are modelled explicitly: string truthiness
(`truthy`, the empty string is falsy), the `a || b` defaulting idiom (`jsOr`),
`String.prototype.includes` (`jsIncludes`), `String.prototype.split` with a
one-character separator (`jsSplit`), and the greedy regex `\x7b[\s\S]*\x7d`
used for JSON extraction (`braceSpan`: from the first opening brace to the
last closing brace, provided the former precedes the latter).
-/

namespace EmailClassifier

/-- JavaScript truthiness of an optional string value, as used by the source
on header values: an absent header and the empty string are falsy, every
other string is truthy. -/
def truthy : Option String → Bool
  | none => false
  | some s => !(s == "")

/-- JavaScript defaulting idiom `a || b` for an optional string field: an
absent field and the empty string fall back to the default. -/
def jsOr (o : Option String) (d : String) : String :=
  match o with
  | none => d
  | some s => if s == "" then d else s

/-- Decide whether the first character list is an initial run of the second. -/
def leadsWith : List Char → List Char → Bool
  | [], _ => true
  | _ :: _, [] => false
  | a :: as, b :: bs => a == b && leadsWith as bs

/-- Decide whether the first character list occurs contiguously inside the
second. -/
def occursIn (needle : List Char) : List Char → Bool
  | [] => needle.isEmpty
  | b :: bs => leadsWith needle (b :: bs) || occursIn needle bs

/-- JavaScript `String.prototype.includes`. -/
def jsIncludes (hay sub : String) : Bool := occursIn sub.data hay.data

/-- Lower-casing as performed by JavaScript `toLowerCase` on the ASCII
strings this program manipulates. -/
def lowerStr (s : String) : String := String.mk (s.data.map Char.toLower)

/-- JavaScript `String.prototype.split` with a one-character separator, on
character lists: `"".split` gives `[""]`, a leading/trailing separator gives
an empty piece. -/
def splitOnChar (c : Char) : List Char → List (List Char)
  | [] => [[]]
  | a :: as =>
    if a == c then [] :: splitOnChar c as
    else
      match splitOnChar c as with
      | [] => [[a]]
      | r :: rs => (a :: r) :: rs

/-- JavaScript `String.prototype.split` with a one-character separator. -/
def jsSplit (s : String) (c : Char) : List String :=
  (splitOnChar c s.data).map String.mk

namespace LABELS

/-- Gmail label id configured for the to-respond label. -/
def TO_RESPOND : String := "Label_19"

/-- Gmail label id configured for the FYI label. -/
def FYI : String := "Label_18"

/-- Gmail label id configured for the comment label. -/
def COMMENT : String := "Label_20"

/-- Gmail label id configured for the notification label. -/
def NOTIFICATION : String := "Label_17"

/-- Gmail label id configured for meeting updates (the source reuses INBOX). -/
def MEETING_UPDATE : String := "INBOX"

/-- Gmail label id configured for the marketing label. -/
def MARKETING : String := "Label_15"

/-- Gmail label id configured for the tickets label. -/
def TICKETS : String := "Label_10"

/-- Gmail label id configured for the receipts label. -/
def RECEIPTS : String := "Label_2"

end LABELS

/-- The values of `CONFIG.LABELS` in declaration order, as produced by
`Object.values` and iterated by the substring scan of
`parseClassificationResponse`. -/
def labelValues : List String :=
  [LABELS.TO_RESPOND, LABELS.FYI, LABELS.COMMENT, LABELS.NOTIFICATION,
   LABELS.MEETING_UPDATE, LABELS.MARKETING, LABELS.TICKETS, LABELS.RECEIPTS]

/-- The six classification-relevant headers the source reads, each `none`
when the header is absent from the message. -/
structure Headers where
  autoSubmitted : Option String := none
  sender : Option String := none
  inReplyTo : Option String := none
  references : Option String := none
  listUnsubscribe : Option String := none
  precedence : Option String := none
  deriving DecidableEq

/-- The email fields consumed by the analyzer and the fallback classifier. -/
structure Email where
  threadId : String
  subject : String
  text : String
  labelIds : List String
  headers : Headers
  deriving DecidableEq

/-- Result record of `checkEmailHistory`; `α` is the (opaque) type of the
message summaries returned by the injected mailbox lookups. `errorMsg`
models the extra `error` field present only on the degraded path. -/
structure HistoryResult (α : Type) where
  hasHistory : Bool
  receivedCount : Nat
  sentCount : Nat
  receivedEmails : List α
  sentEmails : List α
  summary : String
  errorMsg : Option String
  deriving DecidableEq

/-- Human-readable history summary, from
`EmailHistoryChecker.generateHistorySummary`. -/
def generateHistorySummary (hasHistory : Bool) (receivedCount sentCount : Nat) : String :=
  if !hasHistory then
    "No prior email history found - this appears to be a cold email"
  else
    let parts :=
      (if 0 < receivedCount then
        [toString receivedCount ++ " email(s) received from this sender"] else [])
      ++ (if 0 < sentCount then
        [toString sentCount ++ " email(s) sent to this sender"] else [])
    "Prior email history exists: " ++ String.intercalate ", " parts

/-- History check from `EmailHistoryChecker.checkEmailHistory`. The two
injected mailbox lookups (`getEmailsFromSender`, `getEmailsToRecipient`) are
passed as `Except` values; the source awaits the received-lookup first, so a
failure there is the one caught when both fail. -/
def checkEmailHistory {α : Type} (received sent : Except String (List α)) :
    HistoryResult α :=
  match received, sent with
  | .ok r, .ok s =>
    let hasHistory := decide (0 < r.length) || decide (0 < s.length)
    { hasHistory := hasHistory
      receivedCount := r.length
      sentCount := s.length
      receivedEmails := r.take 5
      sentEmails := s.take 5
      summary := generateHistorySummary hasHistory r.length s.length
      errorMsg := none }
  | .error e, _ =>
    { hasHistory := false, receivedCount := 0, sentCount := 0
      receivedEmails := [], sentEmails := []
      summary := "Error checking history - treating as no history"
      errorMsg := some e }
  | .ok _, .error e =>
    { hasHistory := false, receivedCount := 0, sentCount := 0
      receivedEmails := [], sentEmails := []
      summary := "Error checking history - treating as no history"
      errorMsg := some e }

/-- Result record of `analyzeThreadContext`. -/
structure ThreadContext where
  isReply : Bool
  isAutoSubmitted : Bool
  hasUnsubscribe : Bool
  isBulk : Bool
  threadId : String
  context : String
  deriving DecidableEq

/-- Thread context description, from
`EmailHistoryChecker.generateThreadContext`. -/
def generateThreadContext (isReply isAutoSubmitted hasUnsubscribe isBulk : Bool) : String :=
  let contexts :=
    (if isReply then ["Part of ongoing conversation thread"] else [])
    ++ (if isAutoSubmitted then ["Auto-generated/system email"] else [])
    ++ (if hasUnsubscribe then ["Contains unsubscribe mechanism"] else [])
    ++ (if isBulk then ["Mass/bulk email"] else [])
  if 0 < contexts.length then String.intercalate ", " contexts
  else "Direct individual email"

/-- Thread analysis from `EmailHistoryChecker.analyzeThreadContext`:
truthiness of four headers, and an exact case-sensitive comparison of the
precedence header against the string bulk. -/
def analyzeThreadContext (email : Email) : ThreadContext :=
  let isReply := truthy email.headers.inReplyTo || truthy email.headers.references
  let isAutoSubmitted := truthy email.headers.autoSubmitted
  let hasUnsubscribe := truthy email.headers.listUnsubscribe
  let isBulk := email.headers.precedence == some "bulk"
  { isReply := isReply
    isAutoSubmitted := isAutoSubmitted
    hasUnsubscribe := hasUnsubscribe
    isBulk := isBulk
    threadId := email.threadId
    context := generateThreadContext isReply isAutoSubmitted hasUnsubscribe isBulk }

/-- Result record of `analyzeSenderDomain`; `none` models the JavaScript
`undefined` produced by optional chaining on a missing split component. -/
structure DomainAnalysis where
  domain : Option String
  isNoReply : Bool
  isAutomated : Bool
  isMarketing : Bool
  localPart : Option String
  deriving DecidableEq

/-- Anchored alternation of the source regex for no-reply local parts,
spelled out on an already lower-cased input. -/
def matchesNoReplyPat (s : String) : Bool :=
  ["noreply", "no-reply", "donotreply", "do-notreply", "donot-reply",
   "do-not-reply"].any (fun p => leadsWith p.data s.data)

/-- Anchored alternation of the source regex for automated-role local parts. -/
def matchesAutomatedPat (s : String) : Bool :=
  ["notification", "alert", "system", "admin", "support"].any
    (fun p => leadsWith p.data s.data)

/-- Anchored alternation of the source regex for marketing-role local parts. -/
def matchesMarketingPat (s : String) : Bool :=
  ["marketing", "promo", "newsletter", "info"].any
    (fun p => leadsWith p.data s.data)

/-- Regex test lifted to an optional subject string; an absent value tests
false (no pattern matches the JavaScript coercion of undefined). -/
def testOpt (pat : String → Bool) : Option String → Bool
  | none => false
  | some s => pat s

/-- Domain analysis from `EmailHistoryChecker.analyzeSenderDomain`: split the
address at the at-sign, lower-case the pieces, and test the local part
against the three anchored pattern families. -/
def analyzeSenderDomain (senderEmail : String) : DomainAnalysis :=
  let parts := jsSplit senderEmail '@'
  let domain := (parts[1]?).map lowerStr
  let localPart := (parts[0]?).map lowerStr
  { domain := domain
    isNoReply := testOpt matchesNoReplyPat localPart
    isAutomated := testOpt matchesAutomatedPat localPart
    isMarketing := testOpt matchesMarketingPat localPart
    localPart := localPart }

/-- Relationship analysis record consumed by the classifier, assembled by
`performRelationshipAnalysis`. -/
structure RelationshipAnalysis (α : Type) where
  history : HistoryResult α
  thread : ThreadContext
  domain : DomainAnalysis
  classification_hints : List String
  deriving DecidableEq

/-- Meeting keyword test from `OpenAIClassifier.containsMeetingKeywords`. -/
def containsMeetingKeywords (subject : String) : Bool :=
  ["accepted:", "declined:", "invitation", "meeting", "calendar", "cancelled:",
   "updated invitation"].any
    (fun k => jsIncludes (lowerStr subject) (lowerStr k))

/-- Comment keyword test from `OpenAIClassifier.containsCommentKeywords`. -/
def containsCommentKeywords (subject : String) : Bool :=
  ["new comment", "comment on", "feedback on", "review requested"].any
    (fun k => jsIncludes (lowerStr subject) (lowerStr k))

/-- Promotional-signal test from `OpenAIClassifier.appearsPromotional`. -/
def appearsPromotional (email : Email) : Bool :=
  let text := lowerStr (email.subject ++ " " ++ email.text)
  ["sale", "discount", "offer", "deal", "promotion", "marketing",
   "advertisement"].any (fun k => jsIncludes text k)
  || email.labelIds.contains "CATEGORY_PROMOTIONS"
  || truthy email.headers.listUnsubscribe

/-- Notification-signal test from `OpenAIClassifier.appearsNotification`. -/
def appearsNotification (email : Email) (domainAnalysis : DomainAnalysis) : Bool :=
  let text := lowerStr (email.subject ++ " " ++ email.text)
  ["important update", "service notification", "policy change", "dpa update",
   "security alert"].any (fun k => jsIncludes text k)
  || email.labelIds.contains "CATEGORY_UPDATES"
  || domainAnalysis.isNoReply
  || truthy email.headers.autoSubmitted

/-- Question test from `OpenAIClassifier.containsQuestionMarks`: at least two
question marks in the body. -/
def containsQuestionMarks (text : String) : Bool :=
  decide (2 ≤ (text.data.filter (fun c => c == '?')).length)

/-- Travel/ticket keyword test from `OpenAIClassifier.appearsTicket`. -/
def appearsTicket (email : Email) : Bool :=
  let text := lowerStr (email.subject ++ " " ++ email.text)
  ["booking confirmation", "flight", "boarding pass", "check-in",
   "travel itinerary", "train", "bus", "ferry", "airline", "departure",
   "arrival", "ticket", "reservation", "booking", "travel", "journey",
   "trip"].any (fun k => jsIncludes text k)

/-- Receipt/purchase keyword test from `OpenAIClassifier.appearsReceipt`. -/
def appearsReceipt (email : Email) : Bool :=
  let text := lowerStr (email.subject ++ " " ++ email.text)
  ["order confirmation", "receipt", "invoice", "payment", "purchase",
   "shipped", "delivered", "order", "transaction", "billing", "your order",
   "payment confirmation", "thank you for your order",
   "delivery confirmation", "shipping notification"].any
    (fun k => jsIncludes text k)

/-- Classification record returned by the decision operation; `labelId` is
optional because the source passes `parsed.labelId` through and that field
can be the JavaScript `undefined`. -/
structure Classification where
  labelId : Option String
  labelName : String
  confidence : String
  reasoning : String
  deriving DecidableEq

/-- Static id-to-name lookup from `OpenAIClassifier.getLabelName`; every id
outside the 8-entry map (including an absent id) yields Unknown. -/
def getLabelName (labelId : Option String) : String :=
  if labelId == some LABELS.TO_RESPOND then "To Respond"
  else if labelId == some LABELS.FYI then "FYI"
  else if labelId == some LABELS.COMMENT then "Comment"
  else if labelId == some LABELS.NOTIFICATION then "Notification"
  else if labelId == some LABELS.MEETING_UPDATE then "Meeting Update"
  else if labelId == some LABELS.MARKETING then "Marketing"
  else if labelId == some LABELS.TICKETS then "Tickets"
  else if labelId == some LABELS.RECEIPTS then "Receipts"
  else "Unknown"

/-- Rule-based fallback from `OpenAIClassifier.fallbackClassification`:
an if/else-if cascade over eight rules with an FYI default, always LOW
confidence, reasoning prefixed with Fallback. -/
def fallbackClassification {α : Type} (email : Email)
    (relationshipAnalysis : RelationshipAnalysis α) : Classification :=
  let hasHistory := relationshipAnalysis.history.hasHistory
  let threadContext := relationshipAnalysis.thread
  let domainAnalysis := relationshipAnalysis.domain
  let chosen : String × String :=
    if appearsTicket email then
      (LABELS.TICKETS, "Appears to be travel/ticket related")
    else if appearsReceipt email then
      (LABELS.RECEIPTS, "Appears to be purchase/receipt related")
    else if containsMeetingKeywords email.subject then
      (LABELS.MEETING_UPDATE, "Subject contains meeting-related keywords")
    else if containsCommentKeywords email.subject then
      (LABELS.COMMENT, "Subject indicates comment/feedback")
    else if !hasHistory && appearsPromotional email then
      (LABELS.MARKETING, "No history and appears promotional")
    else if appearsNotification email domainAnalysis then
      (LABELS.NOTIFICATION, "Appears to be service notification")
    else if threadContext.isReply || containsQuestionMarks email.text then
      (LABELS.TO_RESPOND, "Part of conversation thread or contains questions")
    else
      (LABELS.FYI, "Fallback classification")
  { labelId := some chosen.1
    labelName := getLabelName (some chosen.1)
    confidence := "LOW"
    reasoning := "Fallback: " ++ chosen.2 }

/-- Shape of the object produced by parsing the model's JSON answer; each
field is `none` when absent from the parsed object. -/
structure ParsedJson where
  labelId : Option String
  labelName : Option String
  confidence : Option String
  reasoning : Option String
  deriving DecidableEq

/-- Index of the first occurrence of a character. -/
def firstIdxOf (c : Char) (cs : List Char) : Option Nat :=
  cs.findIdx? (fun a => a == c)

/-- Index of the last occurrence of a character. -/
def lastIdxOf (c : Char) (cs : List Char) : Option Nat :=
  (firstIdxOf c cs.reverse).map (fun i => cs.length - 1 - i)

/-- Span matched by the greedy JSON-extraction regex of the source: from the
first opening brace to the last closing brace, provided the former comes
first; otherwise no match. -/
def braceSpan (s : String) : Option String :=
  match firstIdxOf '\x7b' s.data, lastIdxOf '\x7d' s.data with
  | some i, some j =>
    if i < j then some (String.mk ((s.data.drop i).take (j - i + 1))) else none
  | _, _ => none

/-- Classification returned by the catch branch of
`parseClassificationResponse` when nothing usable is found in the response. -/
def parseErrorDefault : Classification :=
  { labelId := some LABELS.FYI
    labelName := "FYI"
    confidence := "LOW"
    reasoning := "Parse error - defaulted to FYI" }

/-- Response parsing from `OpenAIClassifier.parseClassificationResponse`.
`jsonParse` is the injected `JSON.parse` builtin, returning `none` where the
builtin throws. When a brace span is found but fails to parse, control moves
to the catch branch, so the substring scan runs only when no span exists. -/
def parseClassificationResponse (jsonParse : String → Option ParsedJson)
    (response : String) : Classification :=
  match braceSpan response with
  | some span =>
    match jsonParse span with
    | some parsed =>
      { labelId := parsed.labelId
        labelName := jsOr parsed.labelName (getLabelName parsed.labelId)
        confidence := jsOr parsed.confidence "MEDIUM"
        reasoning := jsOr parsed.reasoning "No reasoning provided" }
    | none => parseErrorDefault
  | none =>
    match labelValues.find? (fun labelId => jsIncludes response labelId) with
    | some labelId =>
      { labelId := some labelId
        labelName := getLabelName (some labelId)
        confidence := "MEDIUM"
        reasoning := "Label ID found in response" }
    | none => parseErrorDefault

/-- Value returned by `OpenAIClassifier.classifyEmail`: the classification
plus the raw model response (absent on the fallback path). -/
structure ClassifyOutcome where
  result : Classification
  rawResponse : Option String
  deriving DecidableEq

/-- Decision operation from `OpenAIClassifier.classifyEmail`: run the
injected model call; parse its answer on success; fall back to the rule
cascade when the call throws. -/
def classifyEmail {α : Type} (jsonParse : String → Option ParsedJson)
    (email : Email) (relationshipAnalysis : RelationshipAnalysis α)
    (modelCall : Except String String) : ClassifyOutcome :=
  match modelCall with
  | .ok response =>
    { result := parseClassificationResponse jsonParse response
      rawResponse := some response }
  | .error _ =>
    { result := fallbackClassification email relationshipAnalysis
      rawResponse := none }

/-- Drop leading JSON whitespace. -/
def skipWs : List Char → List Char
  | [] => []
  | c :: cs =>
    if c == ' ' || c == '\n' || c == '\t' || c == '\r' then skipWs cs
    else c :: cs

/-- Read the remainder of a double-quoted string (opening quote already
consumed); escape sequences are outside this model and rejected. -/
def readStringAux : List Char → List Char → Option (String × List Char)
  | [], _ => none
  | c :: cs, acc =>
    if c == '"' then some (String.mk acc.reverse, cs)
    else if c == '\\' then none
    else readStringAux cs (c :: acc)

/-- Read a double-quoted string literal. -/
def readString : List Char → Option (String × List Char)
  | '"' :: rest => readStringAux rest []
  | _ => none

/-- Read a comma-separated sequence of string-key/string-value pairs; the
fuel argument bounds the recursion by the input length. -/
def readPairs : Nat → List Char → Option (List (String × String) × List Char)
  | 0, _ => none
  | Nat.succ fuel, cs =>
    match readString (skipWs cs) with
    | none => none
    | some (k, rest) =>
      match skipWs rest with
      | ':' :: rest2 =>
        match readString (skipWs rest2) with
        | none => none
        | some (v, rest3) =>
          match skipWs rest3 with
          | ',' :: rest4 =>
            match readPairs fuel rest4 with
            | none => none
            | some (pairs, rest5) => some ((k, v) :: pairs, rest5)
          | rest4 => some ([(k, v)], rest4)
      | _ => none

/-- Parse a flat object literal with string keys and string values. -/
def parseFlatObj (cs : List Char) : Option (List (String × String)) :=
  match skipWs cs with
  | '\x7b' :: rest =>
    match skipWs rest with
    | '\x7d' :: rest2 => if (skipWs rest2).isEmpty then some [] else none
    | _ =>
      match readPairs rest.length rest with
      | none => none
      | some (pairs, rest2) =>
        match skipWs rest2 with
        | '\x7d' :: rest3 => if (skipWs rest3).isEmpty then some pairs else none
        | _ => none
  | _ => none

/-- Last-wins field lookup, matching JavaScript duplicate-key semantics. -/
def jlookup (pairs : List (String × String)) (k : String) : Option String :=
  (pairs.reverse.find? (fun p => p.1 == k)).map (fun p => p.2)

/-- Executable model of the external JavaScript `JSON.parse` builtin,
restricted to flat object literals with string keys, string values and no
escape sequences; every other input is rejected. The classifier consumes
only the four string fields of the result, and `JSON.parse` agrees with this
model on every concrete string appearing in the closed theorems below. -/
def jsonParseSpec (s : String) : Option ParsedJson :=
  (parseFlatObj s.data).map fun pairs =>
    { labelId := jlookup pairs "labelId"
      labelName := jlookup pairs "labelName"
      confidence := jlookup pairs "confidence"
      reasoning := jlookup pairs "reasoning" }

/-- Restatement of the fallback cascade as the specification describes it:
an ordered rule list. Written from the spec text for comparison with the
source-derived `fallbackClassification`. -/
def specCascadeRules {α : Type} (email : Email)
    (relationshipAnalysis : RelationshipAnalysis α) :
    List (Bool × String × String) :=
  [ (appearsTicket email, LABELS.TICKETS,
      "Appears to be travel/ticket related"),
    (appearsReceipt email, LABELS.RECEIPTS,
      "Appears to be purchase/receipt related"),
    (containsMeetingKeywords email.subject, LABELS.MEETING_UPDATE,
      "Subject contains meeting-related keywords"),
    (containsCommentKeywords email.subject, LABELS.COMMENT,
      "Subject indicates comment/feedback"),
    (!relationshipAnalysis.history.hasHistory && appearsPromotional email,
      LABELS.MARKETING, "No history and appears promotional"),
    (appearsNotification email relationshipAnalysis.domain,
      LABELS.NOTIFICATION, "Appears to be service notification"),
    (relationshipAnalysis.thread.isReply || containsQuestionMarks email.text,
      LABELS.TO_RESPOND,
      "Part of conversation thread or contains questions") ]

/-- First fired rule of an ordered rule list, with a default. -/
def firstFired (dflt : String × String) :
    List (Bool × String × String) → String × String
  | [] => dflt
  | (fired, labelId, reason) :: rest =>
    if fired then (labelId, reason) else firstFired dflt rest

/-- Classification the specification text assigns: first match wins over the
ordered rule list, FYI with LOW confidence when nothing matches. -/
def specCascadeResult {α : Type} (email : Email)
    (relationshipAnalysis : RelationshipAnalysis α) : Classification :=
  let chosen :=
    firstFired (LABELS.FYI, "Fallback classification")
      (specCascadeRules email relationshipAnalysis)
  { labelId := some chosen.1
    labelName := getLabelName (some chosen.1)
    confidence := "LOW"
    reasoning := "Fallback: " ++ chosen.2 }

/-- Concrete email with no classification signals at all. -/
def emailPlain : Email :=
  { threadId := "t3", subject := "hello there", text := "hello",
    labelIds := [], headers := {} }

/-- Concrete email whose subject carries a travel keyword. -/
def emailFlight : Email :=
  { threadId := "t2", subject := "flight", text := "",
    labelIds := [], headers := {} }

/-- Concrete email whose subject carries both a ticket keyword and a receipt
keyword. -/
def emailTicketReceipt : Email :=
  { threadId := "t1", subject := "ticket receipt", text := "",
    labelIds := [], headers := {} }

/-- Concrete email whose precedence header is capitalised Bulk. -/
def emailBulkUpper : Email :=
  { threadId := "t4", subject := "s", text := "",
    labelIds := [], headers := { precedence := some "Bulk" } }

/-- Concrete relationship analysis of a known contact with no other
signals. -/
def analysisKnown : RelationshipAnalysis Unit :=
  { history :=
      { hasHistory := true, receivedCount := 3, sentCount := 1,
        receivedEmails := [], sentEmails := [], summary := "s",
        errorMsg := none }
    thread :=
      { isReply := false, isAutoSubmitted := false, hasUnsubscribe := false,
        isBulk := false, threadId := "t", context := "c" }
    domain :=
      { domain := some "example.com", isNoReply := false,
        isAutomated := false, isMarketing := false,
        localPart := some "alice" }
    classification_hints := [] }

/-- Splitting a list that does not contain the separator yields the list
itself as the single piece. -/
theorem splitOnChar_of_not_mem {c : Char} {cs : List Char}
    (h : ∀ a ∈ cs, a ≠ c) : splitOnChar c cs = [cs] := by
  induction cs with
  | nil => rfl
  | cons a as ih =>
    have ha : (a == c) = false := by
      simpa using h a (List.mem_cons_self a as)
    have ih2 : splitOnChar c as = [as] :=
      ih (fun x hx => h x (List.mem_cons_of_mem a hx))
    simp [splitOnChar, ha, ih2]

/-- Characterisation of a successful `List.find?`: the found element
satisfies the predicate, belongs to the list, and everything before it in
the list fails the predicate. -/
theorem find?_success_split {p : String → Bool} {l : List String} {a : String}
    (h : l.find? p = some a) :
    p a = true ∧ ∃ l1 l2, l = l1 ++ a :: l2 ∧ ∀ x ∈ l1, p x = false := by
  induction l with
  | nil => cases h
  | cons b bs ih =>
    cases hb : p b with
    | true =>
      rw [List.find?_cons_of_pos _ hb] at h
      cases h
      exact ⟨hb, [], bs, rfl, by simp⟩
    | false =>
      rw [List.find?_cons_of_neg _ (by simp [hb])] at h
      obtain ⟨hpa, l1, l2, hl, hl1⟩ := ih h
      refine ⟨hpa, b :: l1, l2, by rw [hl]; rfl, ?_⟩
      intro x hx
      rcases List.mem_cons.mp hx with rfl | hx
      · exact hb
      · exact hl1 x hx

/-- Truthiness of an optional string unfolds to existence of a nonempty
value. -/
theorem truthy_eq_true_iff (o : Option String) :
    truthy o = true ↔ ∃ s, o = some s ∧ s ≠ "" := by
  cases o with
  | none => simp [truthy]
  | some s =>
    simp only [truthy, Bool.not_eq_true']
    constructor
    · intro h
      exact ⟨s, rfl, by simpa using h⟩
    · rintro ⟨t, ht, hne⟩
      cases ht
      simpa using hne

/-- The fallback cascade only ever emits one of the eight configured label
ids. -/
theorem fallback_labelId_mem {α : Type} (email : Email)
    (relationshipAnalysis : RelationshipAnalysis α) :
    (fallbackClassification email relationshipAnalysis).labelId
      ∈ labelValues.map some := by
  unfold fallbackClassification
  dsimp only
  split_ifs <;> decide

/-- C4: for every history-check result produced by `checkEmailHistory` — on
the success path and on the degraded lookup-failure path alike — the
invariant hasHistory == (receivedCount > 0 || sentCount > 0) holds. -/
theorem C4_history_invariant {α : Type} (received sent : Except String (List α)) :
    (checkEmailHistory received sent).hasHistory
      = (decide (0 < (checkEmailHistory received sent).receivedCount)
         || decide (0 < (checkEmailHistory received sent).sentCount)) := by
  rcases received with e | r <;> rcases sent with e2 | s <;>
    simp [checkEmailHistory]

/-- C7: when either history lookup fails, `checkEmailHistory` returns the
degraded result — hasHistory false, zero counts, empty sample lists, and a
summary noting the error — rather than propagating the lookup error (the
embedding is a total function into `HistoryResult`, so no error can
escape). -/
theorem C7_degraded_on_failure {α : Type} (msg : String)
    (sent : Except String (List α)) (r : List α) :
    checkEmailHistory (Except.error msg) sent
      = { hasHistory := false, receivedCount := 0, sentCount := 0,
          receivedEmails := [], sentEmails := [],
          summary := "Error checking history - treating as no history",
          errorMsg := some msg }
    ∧ checkEmailHistory (Except.ok r) (Except.error msg)
      = { hasHistory := false, receivedCount := 0, sentCount := 0,
          receivedEmails := [], sentEmails := [],
          summary := "Error checking history - treating as no history",
          errorMsg := some msg } :=
  ⟨rfl, rfl⟩

/-- C8: in `analyzeThreadContext`, isReply, isAutoSubmitted and
hasUnsubscribe are true exactly when the corresponding headers are present
and truthy, while isBulk requires the precedence header to equal the string
bulk by exact case-sensitive comparison — a capitalised Bulk does not set
it. -/
theorem C8_thread_flags (email : Email) :
    ((analyzeThreadContext email).isReply = true ↔
      ((∃ s, email.headers.inReplyTo = some s ∧ s ≠ "")
        ∨ (∃ s, email.headers.references = some s ∧ s ≠ "")))
    ∧ ((analyzeThreadContext email).isAutoSubmitted = true ↔
        (∃ s, email.headers.autoSubmitted = some s ∧ s ≠ ""))
    ∧ ((analyzeThreadContext email).hasUnsubscribe = true ↔
        (∃ s, email.headers.listUnsubscribe = some s ∧ s ≠ ""))
    ∧ ((analyzeThreadContext email).isBulk = true ↔
        email.headers.precedence = some "bulk")
    ∧ (email.headers.precedence = some "Bulk" →
        (analyzeThreadContext email).isBulk = false) := by
  refine ⟨?_, ?_, ?_, ?_, ?_⟩
  · simp [analyzeThreadContext, Bool.or_eq_true, truthy_eq_true_iff]
  · simp [analyzeThreadContext, truthy_eq_true_iff]
  · simp [analyzeThreadContext, truthy_eq_true_iff]
  · simp [analyzeThreadContext]
  · intro h
    simp [analyzeThreadContext, h]

/-- Closed witness for C8 at a concrete email whose precedence header is the
capitalised string Bulk. -/
theorem C8_thread_flags_witness :
    (analyzeThreadContext emailBulkUpper).isBulk = false :=
  (C8_thread_flags emailBulkUpper).2.2.2.2 rfl

/-- C9: `analyzeSenderDomain` is a total function of an arbitrary string
sender address — for an address with no at-sign the domain degrades to
absent while the local part is still produced, and the empty address yields
the fully degraded analysis instead of an error. -/
theorem C9_domain_degrades (s : String) :
    ((∀ a ∈ s.data, a ≠ '@') →
      (analyzeSenderDomain s).domain = none
        ∧ (analyzeSenderDomain s).localPart = some (lowerStr s))
    ∧ (s = "" →
      analyzeSenderDomain s =
        { domain := none, isNoReply := false, isAutomated := false,
          isMarketing := false, localPart := some "" }) := by
  constructor
  · intro h
    have hsplit : jsSplit s '@' = [s] := by
      unfold jsSplit
      rw [splitOnChar_of_not_mem h]
      rfl
    constructor
    · simp [analyzeSenderDomain, hsplit]
    · simp [analyzeSenderDomain, hsplit, lowerStr]
  · rintro rfl
    decide

/-- Closed witness for C9 at an at-sign-free address and at the empty
address. -/
theorem C9_domain_degrades_witness :
    ((analyzeSenderDomain "abc").domain = none
      ∧ (analyzeSenderDomain "abc").localPart = some (lowerStr "abc"))
    ∧ analyzeSenderDomain "" =
        { domain := none, isNoReply := false, isAutomated := false,
          isMarketing := false, localPart := some "" } :=
  ⟨(C9_domain_degrades "abc").1 (by decide), (C9_domain_degrades "").2 rfl⟩

/-- C3: the fallback cascade evaluates its eight rules in the fixed order
tickets, receipts, meeting, comment, marketing, notification, to-respond,
FYI-default and only the first matching rule fires: `fallbackClassification`
coincides with the first-match evaluation of the ordered rule list; an email
matching both a ticket and a receipt keyword resolves to TICKETS and never
RECEIPTS; and when no rule matches the result is FYI with LOW confidence. -/
theorem C3_cascade_order {α : Type} (email : Email)
    (relationshipAnalysis : RelationshipAnalysis α) :
    fallbackClassification email relationshipAnalysis
      = specCascadeResult email relationshipAnalysis
    ∧ (appearsTicket email = true → appearsReceipt email = true →
        (fallbackClassification email relationshipAnalysis).labelId
            = some LABELS.TICKETS
          ∧ (fallbackClassification email relationshipAnalysis).labelId
            ≠ some LABELS.RECEIPTS)
    ∧ (appearsTicket email = false → appearsReceipt email = false →
        containsMeetingKeywords email.subject = false →
        containsCommentKeywords email.subject = false →
        (!relationshipAnalysis.history.hasHistory
          && appearsPromotional email) = false →
        appearsNotification email relationshipAnalysis.domain = false →
        (relationshipAnalysis.thread.isReply
          || containsQuestionMarks email.text) = false →
        fallbackClassification email relationshipAnalysis
          = { labelId := some LABELS.FYI, labelName := "FYI",
              confidence := "LOW",
              reasoning := "Fallback: Fallback classification" }) := by
  refine ⟨rfl, ?_, ?_⟩
  · intro h1 _h2
    constructor
    · simp [fallbackClassification, h1]
    · simp [fallbackClassification, h1, LABELS.TICKETS, LABELS.RECEIPTS]
  · intro h1 h2 h3 h4 h5 h6 h7
    simp [fallbackClassification, h1, h2, h3, h4, h5, h6, h7, getLabelName,
      LABELS.FYI, LABELS.TO_RESPOND]

/-- Closed witness for C3: a concrete email matching both ticket and receipt
keywords resolves to TICKETS, and a concrete email matching nothing falls
through to the FYI default with LOW confidence. -/
theorem C3_cascade_order_witness :
    ((fallbackClassification emailTicketReceipt analysisKnown).labelId
        = some LABELS.TICKETS
      ∧ (fallbackClassification emailTicketReceipt analysisKnown).labelId
        ≠ some LABELS.RECEIPTS)
    ∧ fallbackClassification emailPlain analysisKnown
      = { labelId := some LABELS.FYI, labelName := "FYI",
          confidence := "LOW",
          reasoning := "Fallback: Fallback classification" } :=
  ⟨(C3_cascade_order emailTicketReceipt analysisKnown).2.1
      (by decide) (by decide),
    (C3_cascade_order emailPlain analysisKnown).2.2
      (by decide) (by decide) (by decide) (by decide) (by decide)
      (by decide) (by decide)⟩

/-- C1 counterexample: the decision operation does not always return one of
the 8 configured label ids. A model response whose JSON object carries an
unknown labelId is passed through verbatim, so the returned labelId is
BOGUS, which lies outside the configured set. -/
theorem C1_counterexample :
    (classifyEmail jsonParseSpec emailPlain analysisKnown
        (Except.ok "\x7b\"labelId\": \"BOGUS\"\x7d")).result.labelId
      = some "BOGUS"
    ∧ some "BOGUS" ∉ labelValues.map some := by
  constructor
  · decide
  · decide

/-- C1 amended: the decision operation returns one of the 8 configured label
ids whenever the injected model call throws or the response contains no
brace-delimited span; when a span exists but fails to parse it returns the
FYI parse-error default; and when a JSON object parses, its labelId field is
returned verbatim without membership validation. -/
theorem C1_amended_label_domain {α : Type}
    (jsonParse : String → Option ParsedJson) (email : Email)
    (relationshipAnalysis : RelationshipAnalysis α) :
    (∀ msg, (classifyEmail jsonParse email relationshipAnalysis
        (Except.error msg)).result.labelId ∈ labelValues.map some)
    ∧ (∀ response, braceSpan response = none →
        (classifyEmail jsonParse email relationshipAnalysis
          (Except.ok response)).result.labelId ∈ labelValues.map some)
    ∧ (∀ response span, braceSpan response = some span →
        jsonParse span = none →
        (classifyEmail jsonParse email relationshipAnalysis
          (Except.ok response)).result = parseErrorDefault)
    ∧ (∀ response span parsed, braceSpan response = some span →
        jsonParse span = some parsed →
        (classifyEmail jsonParse email relationshipAnalysis
          (Except.ok response)).result.labelId = parsed.labelId) := by
  refine ⟨?_, ?_, ?_, ?_⟩
  · intro msg
    exact fallback_labelId_mem email relationshipAnalysis
  · intro response hb
    simp only [classifyEmail, parseClassificationResponse, hb]
    cases hfind : labelValues.find? (fun labelId => jsIncludes response labelId) with
    | none => decide
    | some labelId =>
      have hmem := List.mem_of_find?_eq_some hfind
      simpa using List.mem_map_of_mem some hmem
  · intro response span hb hj
    simp [classifyEmail, parseClassificationResponse, hb, hj]
  · intro response span parsed hb hj
    simp [classifyEmail, parseClassificationResponse, hb, hj]

/-- Closed witness for C1 amended, exercising all four branches at concrete
inputs: a throwing model call, a span-free response, a response whose span
fails to parse, and a response whose span parses to a known label id. -/
theorem C1_amended_label_domain_witness :
    (classifyEmail jsonParseSpec emailPlain analysisKnown
        (Except.error "boom")).result.labelId ∈ labelValues.map some
    ∧ (classifyEmail jsonParseSpec emailPlain analysisKnown
        (Except.ok "no json here")).result.labelId ∈ labelValues.map some
    ∧ (classifyEmail jsonParseSpec emailPlain analysisKnown
        (Except.ok "xx \x7by\x7d")).result = parseErrorDefault
    ∧ (classifyEmail jsonParseSpec emailPlain analysisKnown
        (Except.ok "\x7b\"labelId\": \"Label_19\"\x7d")).result.labelId
      = some "Label_19" :=
  ⟨(C1_amended_label_domain jsonParseSpec emailPlain analysisKnown).1 "boom",
    (C1_amended_label_domain jsonParseSpec emailPlain analysisKnown).2.1
      "no json here" (by decide),
    (C1_amended_label_domain jsonParseSpec emailPlain analysisKnown).2.2.1
      "xx \x7by\x7d" "\x7by\x7d" (by decide) (by decide),
    (C1_amended_label_domain jsonParseSpec emailPlain analysisKnown).2.2.2
      "\x7b\"labelId\": \"Label_19\"\x7d" "\x7b\"labelId\": \"Label_19\"\x7d"
      ⟨some "Label_19", none, none, none⟩ (by decide) (by decide)⟩

/-- C2 counterexample: a response from which neither JSON extraction nor the
substring scan yields a label does not fail over to the keyword fallback
cascade — the code returns the FYI parse-error default, while the cascade
would classify this concrete ticket-keyword email as TICKETS. -/
theorem C2_counterexample :
    braceSpan "the model says hello" = none
    ∧ labelValues.find?
        (fun labelId => jsIncludes "the model says hello" labelId) = none
    ∧ (classifyEmail jsonParseSpec emailFlight analysisKnown
        (Except.ok "the model says hello")).result = parseErrorDefault
    ∧ (fallbackClassification emailFlight analysisKnown).labelId
      = some LABELS.TICKETS
    ∧ (classifyEmail jsonParseSpec emailFlight analysisKnown
        (Except.ok "the model says hello")).result
      ≠ fallbackClassification emailFlight analysisKnown := by
  refine ⟨by decide, by decide, by decide, by decide, by decide⟩

/-- C2 amended: when neither JSON extraction nor the substring scan yields a
label (including a brace-delimited span that fails to parse), the decision
operation returns the built-in FYI parse-error default — LOW confidence,
parse-error reasoning — and never surfaces a hard error to the caller; the
keyword/header fallback cascade runs only when the model call itself
throws. -/
theorem C2_amended_parse_default {α : Type}
    (jsonParse : String → Option ParsedJson) (email : Email)
    (relationshipAnalysis : RelationshipAnalysis α) :
    (∀ response, braceSpan response = none →
        labelValues.find? (fun labelId => jsIncludes response labelId) = none →
        (classifyEmail jsonParse email relationshipAnalysis
          (Except.ok response)).result = parseErrorDefault)
    ∧ (∀ response span, braceSpan response = some span →
        jsonParse span = none →
        (classifyEmail jsonParse email relationshipAnalysis
          (Except.ok response)).result = parseErrorDefault)
    ∧ (∀ msg, (classifyEmail jsonParse email relationshipAnalysis
        (Except.error msg)).result
          = fallbackClassification email relationshipAnalysis) := by
  refine ⟨?_, ?_, ?_⟩
  · intro response hb hf
    simp [classifyEmail, parseClassificationResponse, hb, hf]
  · intro response span hb hj
    simp [classifyEmail, parseClassificationResponse, hb, hj]
  · intro msg
    rfl

/-- Closed witness for C2 amended at concrete inputs covering all three
branches. -/
theorem C2_amended_parse_default_witness :
    (classifyEmail jsonParseSpec emailFlight analysisKnown
        (Except.ok "nothing usable")).result = parseErrorDefault
    ∧ (classifyEmail jsonParseSpec emailFlight analysisKnown
        (Except.ok "\x7bbad\x7d")).result = parseErrorDefault
    ∧ (classifyEmail jsonParseSpec emailFlight analysisKnown
        (Except.error "down")).result
      = fallbackClassification emailFlight analysisKnown :=
  ⟨(C2_amended_parse_default jsonParseSpec emailFlight analysisKnown).1
      "nothing usable" (by decide) (by decide),
    (C2_amended_parse_default jsonParseSpec emailFlight analysisKnown).2.1
      "\x7bbad\x7d" "\x7bbad\x7d" (by decide) (by decide),
    (C2_amended_parse_default jsonParseSpec emailFlight analysisKnown).2.2
      "down"⟩

/-- C5 counterexample: a response containing a brace-delimited span that
fails to parse as JSON — hence a response from which no parseable JSON is
obtained — together with a label-id literal is not resolved by the substring
scan: the code returns the FYI parse-error default instead of the contained
id with MEDIUM confidence. -/
theorem C5_counterexample :
    braceSpan "\x7bnot-json\x7d pick Label_19" = some "\x7bnot-json\x7d"
    ∧ jsonParseSpec "\x7bnot-json\x7d" = none
    ∧ jsIncludes "\x7bnot-json\x7d pick Label_19" "Label_19" = true
    ∧ parseClassificationResponse jsonParseSpec
        "\x7bnot-json\x7d pick Label_19" = parseErrorDefault
    ∧ parseErrorDefault.labelId ≠ some "Label_19"
    ∧ parseErrorDefault.confidence ≠ "MEDIUM" := by
  refine ⟨by decide, by decide, by decide, by decide, by decide, by decide⟩

/-- C5 amended: for every model response string in which the brace-extraction
regex finds no span at all, `parseClassificationResponse` scans the raw
response for the 8 label-id literals in the declared order of the label set
and returns the first id found as a substring, with confidence MEDIUM and
the substring-match reasoning string; every id earlier in the declared order
does not occur in the response. -/
theorem C5_amended_substring_scan (jsonParse : String → Option ParsedJson)
    (response id : String) (h0 : braceSpan response = none)
    (h1 : labelValues.find? (fun labelId => jsIncludes response labelId)
      = some id) :
    parseClassificationResponse jsonParse response
      = { labelId := some id, labelName := getLabelName (some id),
          confidence := "MEDIUM", reasoning := "Label ID found in response" }
    ∧ id ∈ labelValues
    ∧ jsIncludes response id = true
    ∧ ∃ l1 l2, labelValues = l1 ++ id :: l2
        ∧ ∀ x ∈ l1, jsIncludes response x = false := by
  obtain ⟨hpa, l1, l2, hl, hl1⟩ := find?_success_split h1
  refine ⟨?_, List.mem_of_find?_eq_some h1, hpa, l1, l2, hl, hl1⟩
  simp [parseClassificationResponse, h0, h1]

/-- Closed witness for C5 amended: a span-free response containing the
comment label id is resolved to that id with MEDIUM confidence. -/
theorem C5_amended_substring_scan_witness :
    parseClassificationResponse jsonParseSpec "please use Label_20"
      = { labelId := some "Label_20", labelName := "Comment",
          confidence := "MEDIUM",
          reasoning := "Label ID found in response" } :=
  ((C5_amended_substring_scan jsonParseSpec "please use Label_20" "Label_20"
      (by decide) (by decide)).1).trans (by decide)

/-- C6: a model response containing a parseable JSON object whose labelId is
not one of the 8 configured ids is accepted verbatim — the engine does not
validate membership — with labelName defaulting through the static
id-to-name lookup (hence Unknown for such an id), confidence defaulting to
MEDIUM when absent and reasoning defaulting to the fixed placeholder when
absent. -/
theorem C6_json_passthrough (jsonParse : String → Option ParsedJson)
    (response span : String) (parsed : ParsedJson) (v : String)
    (hspan : braceSpan response = some span)
    (hjson : jsonParse span = some parsed)
    (hid : parsed.labelId = some v) (hmem : v ∉ labelValues) :
    (parseClassificationResponse jsonParse response).labelId = some v
    ∧ getLabelName (some v) = "Unknown"
    ∧ (parsed.labelName = none →
        (parseClassificationResponse jsonParse response).labelName
          = getLabelName (some v))
    ∧ (parsed.confidence = none →
        (parseClassificationResponse jsonParse response).confidence
          = "MEDIUM")
    ∧ (parsed.reasoning = none →
        (parseClassificationResponse jsonParse response).reasoning
          = "No reasoning provided") := by
  have hname : getLabelName (some v) = "Unknown" := by
    simp only [labelValues, List.mem_cons, List.not_mem_nil, or_false,
      not_or] at hmem
    obtain ⟨n1, n2, n3, n4, n5, n6, n7, n8⟩ := hmem
    simp [getLabelName, n1, n2, n3, n4, n5, n6, n7, n8]
  refine ⟨?_, hname, ?_, ?_, ?_⟩
  · simp [parseClassificationResponse, hspan, hjson, hid]
  · intro hn
    simp [parseClassificationResponse, hspan, hjson, hid, hn, jsOr]
  · intro hn
    simp [parseClassificationResponse, hspan, hjson, hn, jsOr]
  · intro hn
    simp [parseClassificationResponse, hspan, hjson, hn, jsOr]

/-- Closed witness for C6 at a concrete response whose JSON object carries
the unknown labelId XYZ and no other fields. -/
theorem C6_json_passthrough_witness :
    (parseClassificationResponse jsonParseSpec
        "\x7b\"labelId\": \"XYZ\"\x7d").labelId = some "XYZ"
    ∧ (parseClassificationResponse jsonParseSpec
        "\x7b\"labelId\": \"XYZ\"\x7d").labelName = "Unknown"
    ∧ (parseClassificationResponse jsonParseSpec
        "\x7b\"labelId\": \"XYZ\"\x7d").confidence = "MEDIUM"
    ∧ (parseClassificationResponse jsonParseSpec
        "\x7b\"labelId\": \"XYZ\"\x7d").reasoning
      = "No reasoning provided" := by
  have h := C6_json_passthrough jsonParseSpec
    "\x7b\"labelId\": \"XYZ\"\x7d" "\x7b\"labelId\": \"XYZ\"\x7d"
    ⟨some "XYZ", none, none, none⟩ "XYZ" (by decide) (by decide) rfl
    (by decide)
  exact ⟨h.1, (h.2.2.1 rfl).trans h.2.1, h.2.2.2.1 rfl, h.2.2.2.2 rfl⟩

/-- C10: `getLabelName` returns Unknown for every label id outside the
8-entry id-to-name map (and for an absent id); consequently a classification
whose labelId was accepted by the JSON passthrough without a labelName field
carries labelName Unknown while still holding that very labelId. -/
theorem C10_unknown_label_name (id : String) (hmem : id ∉ labelValues) :
    getLabelName (some id) = "Unknown"
    ∧ getLabelName none = "Unknown"
    ∧ ∀ (jsonParse : String → Option ParsedJson) (response span : String)
        (parsed : ParsedJson),
        braceSpan response = some span → jsonParse span = some parsed →
        parsed.labelId = some id → parsed.labelName = none →
        (parseClassificationResponse jsonParse response).labelId = some id
        ∧ (parseClassificationResponse jsonParse response).labelName
          = "Unknown" := by
  have hname : getLabelName (some id) = "Unknown" := by
    simp only [labelValues, List.mem_cons, List.not_mem_nil, or_false,
      not_or] at hmem
    obtain ⟨n1, n2, n3, n4, n5, n6, n7, n8⟩ := hmem
    simp [getLabelName, n1, n2, n3, n4, n5, n6, n7, n8]
  refine ⟨hname, by decide, ?_⟩
  intro jsonParse response span parsed hspan hjson hid hn
  constructor
  · simp [parseClassificationResponse, hspan, hjson, hid]
  · simp [parseClassificationResponse, hspan, hjson, hid, hn, jsOr, hname]

/-- Closed witness for C10 at the concrete unknown id FOO, fed through the
JSON passthrough. -/
theorem C10_unknown_label_name_witness :
    getLabelName (some "FOO") = "Unknown"
    ∧ (parseClassificationResponse jsonParseSpec
        "\x7b\"labelId\": \"FOO\"\x7d").labelId = some "FOO"
    ∧ (parseClassificationResponse jsonParseSpec
        "\x7b\"labelId\": \"FOO\"\x7d").labelName = "Unknown" := by
  have h := C10_unknown_label_name "FOO" (by decide)
  have h2 := h.2.2 jsonParseSpec "\x7b\"labelId\": \"FOO\"\x7d"
    "\x7b\"labelId\": \"FOO\"\x7d" ⟨some "FOO", none, none, none⟩
    (by decide) (by decide) rfl rfl
  exact ⟨h.1, h2.1, h2.2⟩

end EmailClassifier
